import Mathlib

/-!
Verification development for the gmail-lead-automation repository.

The repository's canonical source is the final variant of `src/index.js`
(a single-run pipeline: read checkpoint, authorize, load the seen-identifier
column, list candidate messages, and for each candidate: duplicate check on
the `message-id` header, HTML-body check, template-cascade parsing, append to
the tabular store, mark read; finally write the checkpoint).

Shallow embedding conventions:
* External services (mail transport, tabular store, auth, the cheerio DOM
  query engine, the clock) are modelled as an environment of responses; the
  pipeline itself is a pure Lean function of that environment.
* JS strings are Lean `String`s; JS string truthiness is the test `s ≠ ""`.
* The base64 transport encoding of message bodies is abstracted away: the
  environment carries the decoded body text directly.
* The cheerio selector queries of `parseIndiaMartLead` are a fixed finite
  family; their (already `.trim()`-med) text results form the structure
  `SelectorResults`, and `parseIndiaMartLead` is embedded as a function of
  those results, exactly following the source's branching.
-/

namespace GmailLeads

/-- The apostrophe character (code point 39), the marker the source prepends
to phone values to force the tabular store to treat them as text. -/
def apos : Char := Char.ofNat 39

/-- The dash character (code point 45), removed from phone values. -/
def dash : Char := Char.ofNat 45

/-- The apostrophe as a one-character string. -/
def aposStr : String := String.mk [apos]

/-- JS `a || b` on strings: `b` when `a` is the empty string (falsy). -/
def jsOr (a b : String) : String := if a = "" then b else a

/-- Constant `MAX_CELL_CHARS` from `src/index.js`: the cell character budget. -/
def MAX_CELL_CHARS : Nat := 49999

/-- The truncation marker appended by `truncateString` in `src/index.js`. -/
def truncMarker : String := "\n... (truncated)"

/-- Function `truncateString` from `src/index.js` lines 259-265, instrumented with a
Boolean recording whether the `console.warn` branch fired.  JS semantics:
`if (str && str.length > MAX_CELL_CHARS)` cut to the budget and append the
marker (warning), else return the string unchanged. -/
def truncateString (s : String) : String × Bool :=
  if s ≠ "" ∧ MAX_CELL_CHARS < s.length then
    (String.mk (s.data.take MAX_CELL_CHARS) ++ truncMarker, true)
  else (s, false)

/-- The string result of `truncateString`, as used by `parseIndiaMartLead`. -/
def truncStr (s : String) : String := (truncateString s).1

/-- The character list of the verification annotation `" (verified)"` that the
phone-formatting block removes (JS `replace` with a string pattern removes
only the first occurrence). -/
def verifiedPat : List Char := (" (verified)").data

/-- Remove the first occurrence of `pat` from a character list, the semantics
of JS `str.replace(pat, "")` for a string pattern. -/
def removeFirstOcc (pat : List Char) : List Char → List Char
  | [] => []
  | c :: cs =>
    if pat.isPrefixOf (c :: cs) then (c :: cs).drop pat.length
    else c :: removeFirstOcc pat cs

/-- Does `l` contain `pat` as a contiguous substring? -/
def hasSubstr (pat : List Char) : List Char → Bool
  | [] => pat.isEmpty
  | c :: cs => pat.isPrefixOf (c :: cs) || hasSubstr pat cs

/-- Remove every dash, the semantics of the source's global dash-regex
`replace` on the phone value. -/
def stripDashes (l : List Char) : List Char := l.filter (fun c => c ≠ dash)

/-- The body of the phone-formatting block of `parseIndiaMartLead`
(`src/index.js` lines 504-510), at the character-list level: remove the first
`" (verified)"`, remove all dashes, and prepend an apostrophe unless the
value already starts with one. -/
def formatPhoneL (l : List Char) : List Char :=
  let p1 := removeFirstOcc verifiedPat l
  let p2 := stripDashes p1
  if p2.head? = some apos then p2 else apos :: p2

/-- The guarded phone-formatting step of `parseIndiaMartLead`: the block runs
only when the phone value is truthy and not the `"N/A"` marker. -/
def formatPhone (s : String) : String :=
  if s ≠ "" ∧ s ≠ "N/A" then String.mk (formatPhoneL s.data) else s

/-- The text results of the fixed cheerio selector queries issued by
`parseIndiaMartLead` on one HTML body (each already trimmed, as in the
source's `.text().trim()`):
* `t1Product`: `div[style*="font-size:18px"] strong` text;
* `t1Name`/`t1Phone`/`t1Email`: first text node, `call+91-` link text and
  `mailto:` link text of the template-1 contact block;
* `t2Product`: bold text after "I need" / "I am looking for";
* `t2Phone`/`t2Name`: template-2 `Click to call:` link text and the
  row-offset name span text;
* `t2Emails`: the texts of all `mailto:` links under `Email:` labels;
* `anyPhone`/`anyMailto`: first `call+91-` link text and first `mailto:`
  link text anywhere in the document (unknown-template fallback). -/
structure SelectorResults where
  t1Product : String
  t1Name : String
  t1Phone : String
  t1Email : String
  t2Product : String
  t2Name : String
  t2Phone : String
  t2Emails : List String
  anyPhone : String
  anyMailto : String
deriving Repr, DecidableEq

/-- The email value chosen by the template cascade of `parseIndiaMartLead`
before the final `|| "N/A"` defaulting: template 1 takes the contact block's
mail-link text; template 2 joins all `Email:` mail-link texts with `", "`;
the unknown template takes the first mail-link text. -/
def emailChoice (sel : SelectorResults) : String :=
  if sel.t1Product ≠ "" then sel.t1Email
  else if sel.t2Product ≠ "" then String.intercalate ", " sel.t2Emails
  else sel.anyMailto

/-- Function `parseIndiaMartLead` from `src/index.js` lines 461-521, as a function of
the selector-query results: template cascade (template 1 when the styled
product heading is non-empty, else template 2 when the bold product phrase is
non-empty, else the unknown-template fallback with `name = product = "N/A"`),
then the guarded phone formatting, then per-field `|| "N/A"` defaulting and
safety truncation.  Returns `[name, phone, email, product]`. -/
def parseIndiaMartLead (sel : SelectorResults) : List String :=
  let fields :=
    if sel.t1Product ≠ "" then
      (sel.t1Name, sel.t1Phone, sel.t1Email, sel.t1Product)
    else if sel.t2Product ≠ "" then
      (sel.t2Name, sel.t2Phone, String.intercalate ", " sel.t2Emails,
        sel.t2Product)
    else
      ("N/A", sel.anyPhone, sel.anyMailto, "N/A")
  let phone := formatPhone fields.2.1
  [truncStr (jsOr fields.1 "N/A"), truncStr (jsOr phone "N/A"),
    truncStr (jsOr fields.2.2.1 "N/A"), truncStr (jsOr fields.2.2.2 "N/A")]

/-- Milliseconds per day. -/
def msPerDay : Int := 86400000

/-- The 48-hour bootstrap window of `getLastRunTime`, in milliseconds. -/
def fortyEightHoursMs : Int := 48 * 60 * 60 * 1000

/-- JS `String(n).padStart(2, "0")` for a month or day number. -/
def pad2 (n : Nat) : String := if n < 10 then "0" ++ toString n else toString n

/-- Civil calendar date (year, month, day) of a day index counted from the
Unix epoch (standard Gregorian `civil_from_days` algorithm), modelling the
`getFullYear`/`getMonth`/`getDate` decomposition of a JS `Date` (the source
runs these in the process's local timezone; the embedding fixes UTC). -/
def civilFromDays (z0 : Int) : Int × Nat × Nat :=
  let z := z0 + 719468
  let era := z.fdiv 146097
  let doe := (z - era * 146097).toNat
  let yoe := (doe - doe / 1460 + doe / 36524 - doe / 146096) / 365
  let y := (yoe : Int) + era * 400
  let doy := doe - (365 * yoe + yoe / 4 - yoe / 100)
  let mp := (5 * doy + 2) / 153
  let d := doy - (153 * mp + 2) / 5 + 1
  let m := if mp < 10 then mp + 3 else mp - 9
  (if m ≤ 2 then y + 1 else y, m, d)

/-- Format an instant (ms since epoch) as the `YYYY/MM/DD` string the source
builds for the Gmail `after:` query operand. -/
def formatGmailDate (ms : Int) : String :=
  let ymd := civilFromDays (ms.fdiv msPerDay)
  toString ymd.1 ++ "/" ++ pad2 ymd.2.1 ++ "/" ++ pad2 ymd.2.2

/-- Function `getLastRunTime` from `src/index.js` lines 270-291.  `checkpoint` is the
parsed timestamp stored in `last_run.txt` when the file exists and reading it
succeeds, and `none` when the file is missing or the read throws (the
source catches that error and falls through).  Present checkpoint: format the
stored timestamp's date; otherwise: format the date of `now` minus 48 hours. -/
def getLastRunTime (checkpoint : Option Int) (now : Int) : String :=
  match checkpoint with
  | some t => formatGmailDate t
  | none => formatGmailDate (now - fortyEightHoursMs)

/-- One email header name/value pair. -/
structure Header where
  name : String
  value : String
deriving Repr, DecidableEq

/-- One MIME part of a message payload; `bodyData` is the decoded body text
(`none` when the part carries no data). -/
structure Part where
  mimeType : String
  bodyData : Option String
deriving Repr, DecidableEq

/-- A message payload: optional part list, optional top-level body data, and
the header list (the source reads `emailData.payload.headers`). -/
structure Payload where
  parts : Option (List Part)
  bodyData : Option String
  headers : List Header
deriving Repr, DecidableEq

/-- The full message data returned by the mail service's `get` call. -/
structure EmailData where
  payload : Payload
deriving Repr, DecidableEq

/-- Function `getEmailBody` from `src/index.js` lines 442-456: when a part list is
present (even empty — a JS array is truthy), take the first `text/html`
part's data; otherwise take the payload's own body data; absent data yields
the empty string. -/
def getEmailBody (m : EmailData) : String :=
  match m.payload.parts with
  | some parts =>
    match parts.find? (fun p => p.mimeType = "text/html") with
    | some part => part.bodyData.getD ""
    | none => ""
  | none => m.payload.bodyData.getD ""

/-- JS `toLowerCase` on a header name, as a character-wise map (Latin
letters, the only characters appearing in header names). -/
def jsToLower (s : String) : String := String.mk (s.data.map Char.toLower)

/-- The `message-id` header lookup of `checkAndFetchLeads` (case-insensitive
on the header name); `none` when no such header exists, mirroring the JS
`uniqueMessageIdHeader ? uniqueMessageIdHeader.value : null`. -/
def uniqueIdOf (hs : List Header) : Option String :=
  (hs.find? (fun h => jsToLower h.name = "message-id")).map (fun h => h.value)

/-- The duplicate test of `src/index.js` line 382:
`if (uniqueMessageId && existingIds.has(uniqueMessageId))` — the header must
be present with a truthy (non-empty) value that is a member of the seen set. -/
def isDupSkip (uid : Option String) (seen : List String) : Bool :=
  match uid with
  | some v => v ≠ "" && seen.contains v
  | none => false

/-- The unique-identifier column value `uniqueMessageId || msgId` written to
column J: the header value when present and non-empty, else the transport
message id. -/
def colJ (uid : Option String) (msgId : String) : String :=
  match uid with
  | some v => if v ≠ "" then v else msgId
  | none => msgId

/-- Function `getExistingMessageIds` from `src/index.js` lines 309-324 applied to the
store's response: on success, flatten the returned rows and drop empty cells
and the header label; on failure the source logs and returns an empty set so
the run continues. -/
def getExistingMessageIds (resp : Except String (List (List String))) :
    List String :=
  match resp with
  | .ok rows => rows.flatten.filter (fun id => id ≠ "" && id ≠ "Unique Message ID")
  | .error _ => []

/-- The row built for one admitted candidate (`src/index.js` lines 395-403):
the four parsed fields, the processing date string, the literal lifecycle
columns, and the unique-identifier column. -/
def buildRow (nowStr uidCol : String) (sel : SelectorResults) : List String :=
  parseIndiaMartLead sel ++ [nowStr, "New", "Yes", "", "", uidCol]

/-- The environment of external-service responses for one pipeline run:
checkpoint read result, clock values, and the auth / store-read / list /
get / append / mark-read call results, plus the DOM query oracle mapping an
HTML body to its selector-query results and the checkpoint-write outcome. -/
structure Env where
  checkpoint : Option Int
  now : Int
  nowStr : String
  authResp : Except String Unit
  idColResp : Except String (List (List String))
  listResp : Except String (List String)
  getResp : String → Except String EmailData
  appendResp : List String → Except String Unit
  modifyResp : String → Except String Unit
  dom : String → SelectorResults
  writeOk : Bool

/-- The shared-state effects accumulated by the candidate loop: rows appended
to the store and message ids marked read, in order. -/
structure Trace where
  appended : List (List String)
  marked : List String
deriving Repr, DecidableEq

/-- The observable outcome of one run: the effect trace, whether the
checkpoint write (`saveCurrentRunTime`) was reached, and the process exit
status (`some 1` exactly when the catch block ran `process.exit(1)`). -/
structure RunResult where
  appended : List (List String)
  marked : List String
  saveCalled : Bool
  exit : Option Nat
deriving Repr, DecidableEq

/-- The per-candidate loop of `checkAndFetchLeads` (`src/index.js` lines
364-425).  For each message id: fetch the full message (a failed call throws
out of the loop), extract the `message-id` header, skip duplicates
(`continue` — no other effect), skip bodies that are empty, otherwise parse,
append the row, then mark the message read.  A thrown error carries the
trace accumulated so far. -/
def processLoop (env : Env) (seen : List String) :
    List String → Trace → Trace × Option String
  | [], tr => (tr, none)
  | msgId :: rest, tr =>
    match env.getResp msgId with
    | .error e => (tr, some e)
    | .ok emailData =>
      let uid := uniqueIdOf emailData.payload.headers
      if isDupSkip uid seen then
        processLoop env seen rest tr
      else
        let html := getEmailBody emailData
        if html = "" then
          processLoop env seen rest tr
        else
          let row := buildRow env.nowStr (colJ uid msgId) (env.dom html)
          match env.appendResp row with
          | .error e => (tr, some e)
          | .ok _ =>
            match env.modifyResp msgId with
            | .error e => (⟨tr.appended ++ [row], tr.marked⟩, some e)
            | .ok _ =>
              processLoop env seen rest
                ⟨tr.appended ++ [row], tr.marked ++ [msgId]⟩

/-- Function `checkAndFetchLeads` from `src/index.js` lines 330-437 as one run over an
environment.  The try block: authorize, load the seen-identifier set, list
candidates (an empty result saves the checkpoint and returns), run the
candidate loop, and save the checkpoint after a clean loop.  Any error
thrown inside the try block reaches the catch, which logs and exits with
status 1 without saving the checkpoint.  (`getLastRunTime` feeds only the
query string handed to the mail service, which the environment answers via
`listResp`.) -/
def checkAndFetchLeads (env : Env) : RunResult :=
  match env.authResp with
  | .error _ => ⟨[], [], false, some 1⟩
  | .ok _ =>
    let seen := getExistingMessageIds env.idColResp
    match env.listResp with
    | .error _ => ⟨[], [], false, some 1⟩
    | .ok msgs =>
      if msgs.isEmpty then ⟨[], [], true, none⟩
      else
        match processLoop env seen msgs ⟨[], []⟩ with
        | (tr, none) => ⟨tr.appended, tr.marked, true, none⟩
        | (tr, some _) => ⟨tr.appended, tr.marked, false, some 1⟩

theorem removeFirstOcc_of_not_hasSubstr (pat l : List Char)
    (h : hasSubstr pat l = false) : removeFirstOcc pat l = l := by
  induction l with
  | nil => rfl
  | cons c cs ih =>
    simp only [hasSubstr, Bool.or_eq_false_iff] at h
    simp [removeFirstOcc, h.1, ih h.2]

theorem stripDashes_eq_self (l : List Char) (h : ∀ c ∈ l, c ≠ dash) :
    stripDashes l = l := by
  unfold stripDashes
  rw [List.filter_eq_self]
  intro a ha
  simpa using h a ha

theorem formatPhoneL_head (l : List Char) :
    (formatPhoneL l).head? = some apos := by
  simp only [formatPhoneL]
  split
  · assumption
  · rfl

theorem formatPhoneL_nodash (l : List Char) :
    ∀ c ∈ formatPhoneL l, c ≠ dash := by
  simp only [formatPhoneL]
  split
  · intro c hc
    simp only [stripDashes, List.mem_filter, decide_eq_true_eq] at hc
    exact hc.2
  · intro c hc
    rcases List.mem_cons.mp hc with h | h
    · subst h; decide
    · simp only [stripDashes, List.mem_filter, decide_eq_true_eq] at h
      exact h.2

theorem formatPhoneL_fixed (L : List Char)
    (h : hasSubstr verifiedPat L = false)
    (hhead : L.head? = some apos)
    (hnodash : ∀ c ∈ L, c ≠ dash) : formatPhoneL L = L := by
  simp only [formatPhoneL]
  rw [removeFirstOcc_of_not_hasSubstr _ _ h,
    stripDashes_eq_self _ hnodash, if_pos hhead]

/-- C8 (counterexample): phone normalization as implemented is NOT idempotent
for every phone value.  The input `"12 (veri-fied)34"` contains no literal
`" (verified)"` before dash removal, so the first pass only strips the dash
and prepends the apostrophe, leaving `" (verified)"` in the output; a second
pass then removes it, changing the value. -/
theorem formatPhone_not_idem :
    formatPhone (formatPhone "12 (veri-fied)34") ≠
      formatPhone "12 (veri-fied)34" := by decide

/-- C8 (amended): phone normalization is idempotent for every phone value
whose normalized form no longer contains the verification annotation
`" (verified)"` (in particular for every already-normalized value produced
from a phone that carried the annotation in its usual trailing position).
The normalized form of a non-empty, non-`"N/A"` value always starts with the
apostrophe marker and contains no dash, so a second pass can only act through
the first-occurrence annotation removal. -/
theorem formatPhone_idem (s : String)
    (h : hasSubstr verifiedPat (formatPhone s).data = false) :
    formatPhone (formatPhone s) = formatPhone s := by
  by_cases hg : s ≠ "" ∧ s ≠ "N/A"
  · have hq : formatPhone s = String.mk (formatPhoneL s.data) := by
      show (if s ≠ "" ∧ s ≠ "N/A" then String.mk (formatPhoneL s.data) else s)
          = String.mk (formatPhoneL s.data)
      rw [if_pos hg]
    rw [hq] at h ⊢
    have hdata : (String.mk (formatPhoneL s.data)).data = formatPhoneL s.data := rfl
    rw [hdata] at h
    have hhead := formatPhoneL_head s.data
    have hnodash := formatPhoneL_nodash s.data
    have hne1 : String.mk (formatPhoneL s.data) ≠ "" := by
      intro hcon
      have h1 : formatPhoneL s.data = ([] : List Char) :=
        congrArg String.data hcon
      rw [h1] at hhead
      exact absurd hhead (by decide)
    have hne2 : String.mk (formatPhoneL s.data) ≠ "N/A" := by
      intro hcon
      have h1 : formatPhoneL s.data = ("N/A").data :=
        congrArg String.data hcon
      rw [h1] at hhead
      exact absurd hhead (by decide)
    have hstep : formatPhone (String.mk (formatPhoneL s.data)) =
        String.mk (formatPhoneL (formatPhoneL s.data)) := by
      show (if String.mk (formatPhoneL s.data) ≠ "" ∧
              String.mk (formatPhoneL s.data) ≠ "N/A" then
              String.mk (formatPhoneL (String.mk (formatPhoneL s.data)).data)
            else String.mk (formatPhoneL s.data))
          = String.mk (formatPhoneL (formatPhoneL s.data))
      rw [if_pos ⟨hne1, hne2⟩]
    rw [hstep]
    congr 1
    exact formatPhoneL_fixed _ h hhead hnodash
  · have hq : formatPhone s = s := by
      show (if s ≠ "" ∧ s ≠ "N/A" then String.mk (formatPhoneL s.data) else s) = s
      rw [if_neg hg]
    rw [hq]
    exact hq

/-- Witness for the amended C8 theorem at a concrete annotated phone value:
`"12-34 (verified)"` normalizes to `"'1234"`, which contains no annotation,
and normalizing again leaves it unchanged. -/
theorem formatPhone_idem_witness :
    hasSubstr verifiedPat (formatPhone "12-34 (verified)").data = false ∧
      formatPhone (formatPhone "12-34 (verified)") =
        formatPhone "12-34 (verified)" :=
  ⟨by decide, formatPhone_idem "12-34 (verified)" (by decide)⟩

/-- C9: the truncation law of `truncateString`: the output string is at most
the 49,999-character budget plus the marker length; inputs within the budget
pass through unchanged; and the warning flag fires exactly when the input
exceeds the budget. -/
theorem truncateString_law (s : String) :
    (truncateString s).1.length ≤ MAX_CELL_CHARS + truncMarker.length
    ∧ (s.length ≤ MAX_CELL_CHARS → (truncateString s).1 = s)
    ∧ ((truncateString s).2 = true ↔ MAX_CELL_CHARS < s.length) := by
  have hmk : truncMarker.length = 16 := rfl
  unfold truncateString
  by_cases h : s ≠ "" ∧ MAX_CELL_CHARS < s.length
  · rw [if_pos h]
    refine ⟨?_, ?_, ?_⟩
    · rw [String.length_append]
      have h1 : (String.mk (s.data.take MAX_CELL_CHARS)).length
          = min MAX_CELL_CHARS s.data.length := by
        show (s.data.take MAX_CELL_CHARS).length = min MAX_CELL_CHARS s.data.length
        exact List.length_take _ _
      rw [h1, hmk]
      omega
    · intro hle
      exact absurd hle (by omega)
    · simpa using h.2
  · rw [if_neg h]
    push_neg at h
    by_cases hs : s = ""
    · subst hs
      refine ⟨by simp [hmk], fun _ => rfl, by simp⟩
    · have hle : s.length ≤ MAX_CELL_CHARS := h hs
      refine ⟨?_, fun _ => rfl, by simpa using hle⟩
      show s.length ≤ MAX_CELL_CHARS + truncMarker.length
      omega

/-- Witness for C9 at a concrete short input. -/
theorem truncateString_law_witness : (truncateString "ab").1 = "ab" :=
  (truncateString_law "ab").2.1 (by decide)

/-- C7: the query lower bound: with no checkpoint (file missing, or the read
failed and was caught) the formatted date is that of `now` minus 48 hours;
with a stored checkpoint timestamp the formatted date is that of the stored
instant.  Moreover the 48-hour bootstrap is exactly two civil days before
`now` at day granularity. -/
theorem getLastRunTime_spec (now : Int) :
    getLastRunTime none now = formatGmailDate (now - fortyEightHoursMs)
    ∧ (∀ t : Int, getLastRunTime (some t) now = formatGmailDate t)
    ∧ (now - fortyEightHoursMs).fdiv msPerDay = now.fdiv msPerDay - 2 := by
  refine ⟨rfl, fun t => rfl, ?_⟩
  have h48 : fortyEightHoursMs = 2 * msPerDay := by decide
  rw [h48]
  show (now - 2 * (86400000 : Int)).fdiv 86400000 = now.fdiv 86400000 - 2
  rw [Int.fdiv_eq_ediv _ (by norm_num), Int.fdiv_eq_ediv _ (by norm_num)]
  omega

/-- Witness for C7 at a concrete checkpoint timestamp. -/
theorem getLastRunTime_spec_witness :
    getLastRunTime (some 1735689600000) 0 = formatGmailDate 1735689600000 :=
  (getLastRunTime_spec 0).2.1 1735689600000

/-! Concrete environments used to settle the pipeline claims.  Each claim has
its own environment so the scenarios stay independent. -/

/-- Selector results of an unrecognized template carrying only a phone link. -/
def selC1 : SelectorResults := ⟨"", "", "", "", "", "", "", [], "+91-11", ""⟩

/-- A message whose headers carry no `message-id` at all. -/
def edC1 : EmailData :=
  ⟨⟨none, some "<html>lead</html>", [⟨"From", "noreply@example.test"⟩]⟩⟩

/-- Environment for C1: the seen-identifier column already contains the
transport id `"m1"` of the (header-less) candidate message. -/
def envC1 : Env where
  checkpoint := none
  now := 0
  nowStr := "d1"
  authResp := .ok ()
  idColResp := .ok [["Unique Message ID"], ["m1"]]
  listResp := .ok ["m1"]
  getResp := fun _ => .ok edC1
  appendResp := fun _ => .ok ()
  modifyResp := fun _ => .ok ()
  dom := fun _ => selC1
  writeOk := true

/-- C1 (counterexample): a candidate whose unique identifier (here the
transport id `"m1"`, the column-J fallback because the `message-id` header is
absent) is already a member of the seen set IS appended again: the duplicate
check at `src/index.js` line 382 tests only a present, non-empty header
value, so the run persists a second row carrying an identifier that the
store already holds. -/
theorem run_fallback_id_duplicate_appended :
    "m1" ∈ getExistingMessageIds envC1.idColResp
    ∧ checkAndFetchLeads envC1 =
      ⟨[["N/A", aposStr ++ "+9111", "N/A", "N/A", "d1", "New", "Yes", "", "",
          "m1"]], ["m1"], true, none⟩ := by
  constructor
  · decide
  · decide

/-- C1 (amended): a candidate whose `message-id` header is present with a
non-empty value that is already a member of the seen set is never appended:
the loop skips it entirely, leaving the effect trace unchanged. -/
theorem duplicate_header_id_skipped (env : Env) (seen : List String)
    (msgId : String) (rest : List String) (tr : Trace) (ed : EmailData)
    (v : String)
    (hget : env.getResp msgId = .ok ed)
    (huid : uniqueIdOf ed.payload.headers = some v)
    (hv : v ≠ "")
    (hmem : seen.contains v = true) :
    processLoop env seen (msgId :: rest) tr = processLoop env seen rest tr := by
  have hmem' : v ∈ seen := by simpa using hmem
  simp [processLoop, hget, isDupSkip, huid, hv, hmem']

/-- A message whose `message-id` header value is `"id1"`. -/
def edC1w : EmailData := ⟨⟨none, none, [⟨"Message-ID", "id1"⟩]⟩⟩

/-- Minimal environment for the C1 witness. -/
def envC1w : Env where
  checkpoint := none
  now := 0
  nowStr := "w"
  authResp := .ok ()
  idColResp := .ok []
  listResp := .ok []
  getResp := fun _ => .ok edC1w
  appendResp := fun _ => .ok ()
  modifyResp := fun _ => .ok ()
  dom := fun _ => selC1
  writeOk := true

/-- Witness for the amended C1 theorem at a concrete duplicate candidate. -/
theorem duplicate_header_id_skipped_witness :
    processLoop envC1w ["id1"] ["w1"] ⟨[], []⟩ =
      processLoop envC1w ["id1"] [] ⟨[], []⟩ :=
  duplicate_header_id_skipped envC1w ["id1"] "w1" [] ⟨[], []⟩ edC1w "id1"
    rfl rfl (by decide) (by decide)

/-- Selector results in which every query came back empty: the parsed record
is the all-`"N/A"` ghost/junk shape. -/
def selC2 : SelectorResults := ⟨"", "", "", "", "", "", "", [], "", ""⟩

/-- A junk candidate message: HTML body present, nothing extractable. -/
def edC2 : EmailData :=
  ⟨⟨none, some "<html>x</html>", [⟨"Message-ID", "mid-2"⟩]⟩⟩

/-- Environment for C2: one junk candidate, empty seen set. -/
def envC2 : Env where
  checkpoint := none
  now := 0
  nowStr := "d2"
  authResp := .ok ()
  idColResp := .ok []
  listResp := .ok ["m2"]
  getResp := fun _ => .ok edC2
  appendResp := fun _ => .ok ()
  modifyResp := fun _ => .ok ()
  dom := fun _ => selC2
  writeOk := true

/-- C2 (counterexample): a candidate whose extracted name AND phone are both
`"N/A"` is nevertheless persisted: the canonical pipeline has no junk check,
so the all-unknown row is appended (and the message marked read), while the
claim says such a record is never persisted. -/
theorem run_junk_record_persisted :
    checkAndFetchLeads envC2 =
      ⟨[["N/A", "N/A", "N/A", "N/A", "d2", "New", "Yes", "", "", "mid-2"]],
        ["m2"], true, none⟩ := by decide

/-- C2 (amended): the pipeline applies no junk filter: every candidate that
passes the duplicate check and has a non-empty HTML body is appended to the
store and then marked read, regardless of the extracted field values (in
particular when name and phone are both `"N/A"`). -/
theorem pipeline_no_junk_filter (env : Env) (seen : List String)
    (msgId : String) (rest : List String) (tr : Trace) (ed : EmailData)
    (hget : env.getResp msgId = .ok ed)
    (hdup : isDupSkip (uniqueIdOf ed.payload.headers) seen = false)
    (hbody : getEmailBody ed ≠ "")
    (happ : env.appendResp (buildRow env.nowStr
      (colJ (uniqueIdOf ed.payload.headers) msgId)
      (env.dom (getEmailBody ed))) = .ok ())
    (hmod : env.modifyResp msgId = .ok ()) :
    processLoop env seen (msgId :: rest) tr =
      processLoop env seen rest
        ⟨tr.appended ++ [buildRow env.nowStr
            (colJ (uniqueIdOf ed.payload.headers) msgId)
            (env.dom (getEmailBody ed))],
          tr.marked ++ [msgId]⟩ := by
  simp [processLoop, hget, hdup, hbody, happ, hmod]

/-- Witness for the amended C2 theorem: the concrete junk candidate of
`envC2` is appended and marked read. -/
theorem pipeline_no_junk_filter_witness :
    processLoop envC2 [] ["m2"] ⟨[], []⟩ =
      processLoop envC2 [] []
        ⟨[buildRow envC2.nowStr (colJ (uniqueIdOf edC2.payload.headers) "m2")
            (envC2.dom (getEmailBody edC2))], ["m2"]⟩ :=
  pipeline_no_junk_filter envC2 [] "m2" [] ⟨[], []⟩ edC2
    rfl (by decide) (by decide) rfl rfl

/-- Selector results of an unrecognized template with a phone link only. -/
def selC3 : SelectorResults := ⟨"", "", "", "", "", "", "", [], "+91-98-76", ""⟩

/-- A candidate with a valid `Reply-To` header of the form
`Display Name <address>` and an unrecognized HTML template. -/
def edC3 : EmailData :=
  ⟨⟨none, some "<html>promo</html>",
    [⟨"Reply-To", "John Doe <jd@example.test>"⟩, ⟨"Message-Id", "mid-3"⟩]⟩⟩

/-- Environment for C3. -/
def envC3 : Env where
  checkpoint := none
  now := 0
  nowStr := "d3"
  authResp := .ok ()
  idColResp := .ok [["Unique Message ID"]]
  listResp := .ok ["m3"]
  getResp := fun _ => .ok edC3
  appendResp := fun _ => .ok ()
  modifyResp := fun _ => .ok ()
  dom := fun _ => selC3
  writeOk := true

/-- C3 (counterexample): for unrecognized HTML the persisted name is the
`"N/A"` marker even though the message carries a valid reply-to header with
display name `"John Doe"`: `parseIndiaMartLead` receives only the HTML body,
never the headers, and hard-codes `name = "N/A"` in the unknown-template
branch, so no header fallback exists. -/
theorem run_reply_to_header_ignored :
    checkAndFetchLeads envC3 =
      ⟨[["N/A", aposStr ++ "+919876", "N/A", "N/A", "d3", "New", "Yes", "",
          "", "mid-3"]], ["m3"], true, none⟩ := by decide

/-- C3 (amended): for every unrecognized template (both template probes
empty) the extracted name is unconditionally the `"N/A"` marker; the
extractor takes no header input, so the reply-to header cannot contribute a
name. -/
theorem parse_unknown_template_name (sel : SelectorResults)
    (h1 : sel.t1Product = "") (h2 : sel.t2Product = "") :
    (parseIndiaMartLead sel).head? = some "N/A" := by
  simp only [parseIndiaMartLead, h1, h2]
  norm_num
  decide

/-- Witness for the amended C3 theorem at concrete selector results. -/
theorem parse_unknown_template_name_witness :
    (parseIndiaMartLead ⟨"", "zz", "zz", "zz", "", "zz", "zz", [], "+91-9",
      "m@example.test"⟩).head? = some "N/A" :=
  parse_unknown_template_name _ rfl rfl

/-- A message whose `message-id` value is already in the seen column. -/
def edC4 : EmailData :=
  ⟨⟨none, some "<html>y</html>", [⟨"Message-ID", "dup-1"⟩]⟩⟩

/-- Environment for C4: the sole candidate is a duplicate. -/
def envC4 : Env where
  checkpoint := none
  now := 0
  nowStr := "d4"
  authResp := .ok ()
  idColResp := .ok [["dup-1"]]
  listResp := .ok ["m4"]
  getResp := fun _ => .ok edC4
  appendResp := fun _ => .ok ()
  modifyResp := fun _ => .ok ()
  dom := fun _ => selC2
  writeOk := true

/-- C4 (counterexample): a duplicate candidate is NOT marked read: the
duplicate branch is a bare `continue` (`src/index.js` lines 382-385), so the
run ends with no marked message at all, while the claim says the read-flag
change happens. -/
theorem run_duplicate_not_marked_read :
    checkAndFetchLeads envC4 = ⟨[], [], true, none⟩ := by decide

/-- C4 (amended): for a candidate whose `message-id` header value is present,
non-empty and already in the seen set, the run makes no append call, no
mark-read call and no junk warning: the loop skips it with no observable
effect on the store or the mailbox, and the run still completes and reaches
the checkpoint write. -/
theorem duplicate_skip_no_effects (env : Env) (msgId : String)
    (ed : EmailData) (v : String)
    (hauth : env.authResp = .ok ())
    (hlist : env.listResp = .ok [msgId])
    (hget : env.getResp msgId = .ok ed)
    (huid : uniqueIdOf ed.payload.headers = some v)
    (hv : v ≠ "")
    (hmem : (getExistingMessageIds env.idColResp).contains v = true) :
    checkAndFetchLeads env = ⟨[], [], true, none⟩ := by
  have hmem' : v ∈ getExistingMessageIds env.idColResp := by simpa using hmem
  simp [checkAndFetchLeads, hauth, hlist, processLoop, hget, isDupSkip, huid,
    hv, hmem']

/-- A duplicate message for the C4 witness. -/
def edC4w : EmailData := ⟨⟨none, some "<b>z</b>", [⟨"message-id", "dup-w"⟩]⟩⟩

/-- Environment for the C4 witness. -/
def envC4w : Env where
  checkpoint := none
  now := 0
  nowStr := "w4"
  authResp := .ok ()
  idColResp := .ok [["dup-w"]]
  listResp := .ok ["w4"]
  getResp := fun _ => .ok edC4w
  appendResp := fun _ => .ok ()
  modifyResp := fun _ => .ok ()
  dom := fun _ => selC2
  writeOk := true

/-- Witness for the amended C4 theorem. -/
theorem duplicate_skip_no_effects_witness :
    checkAndFetchLeads envC4w = ⟨[], [], true, none⟩ :=
  duplicate_skip_no_effects envC4w "w4" edC4w "dup-w" rfl rfl rfl rfl
    (by decide) (by decide)

/-- C5 (counterexample): a template-1 mail-link text equal to the platform's
generic outbound address (`buyleads@indiamart.com`) is NOT rejected: the
extractor returns it verbatim as the lead's email instead of falling back
and resolving to `"N/A"`; no deny-list comparison and no verification
annotation stripping exist on the email path. -/
theorem parse_email_not_rejected :
    parseIndiaMartLead ⟨"Film", "Alice", "", "buyleads@indiamart.com", "", "",
        "", [], "", ""⟩ =
      ["Alice", "N/A", "buyleads@indiamart.com", "Film"] := by decide

/-- C5 (amended): the email cascade is purely template-based with no
rejection rule: template 1 takes the heading-style container's mail-link
text, template 2 joins the `Email:` label mail-link texts with `", "`, the
unknown template takes the first mail-link text, and an empty result
defaults to `"N/A"`; the chosen value is passed through unmodified (no
platform-address rejection, no annotation stripping). -/
theorem parse_email_cascade (sel : SelectorResults) :
    (parseIndiaMartLead sel).get? 2 =
      some (truncStr (jsOr (emailChoice sel) "N/A")) := by
  unfold parseIndiaMartLead emailChoice
  by_cases h1 : sel.t1Product ≠ ""
  · simp [h1]
  · by_cases h2 : sel.t2Product ≠ ""
    · simp [h1, h2]
    · simp [h1, h2]

/-- Selector results for the C6 counterexample. -/
def selC6 : SelectorResults := ⟨"", "", "", "", "", "", "", [], "+91-22", ""⟩

/-- The candidate processed in the C6 counterexample run. -/
def edC6 : EmailData :=
  ⟨⟨none, some "<html>q</html>", [⟨"Message-ID", "mid-6"⟩]⟩⟩

/-- Environment for C6: the seen-identifier column read fails, everything
else succeeds. -/
def envC6 : Env where
  checkpoint := none
  now := 0
  nowStr := "d6"
  authResp := .ok ()
  idColResp := .error "quota exceeded"
  listResp := .ok ["m6"]
  getResp := fun _ => .ok edC6
  appendResp := fun _ => .ok ()
  modifyResp := fun _ => .ok ()
  dom := fun _ => selC6
  writeOk := true

/-- C6 (counterexample): a failing store call does NOT always abort the run:
when the seen-identifier column read fails, `getExistingMessageIds` catches
the error and returns an empty set, and the run continues to completion —
it appends the candidate, marks it read, writes the checkpoint and exits
cleanly, while the claim says any store-call failure yields a non-zero
exit with the checkpoint untouched. -/
theorem run_store_read_failure_not_abort :
    checkAndFetchLeads envC6 =
      ⟨[["N/A", aposStr ++ "+9122", "N/A", "N/A", "d6", "New", "Yes", "", "",
          "mid-6"]], ["m6"], true, none⟩ := by decide

/-- C6 (amended): failures of the calls awaited inside the try block — the
message list call, and the per-candidate get, append and mark-read calls —
abort the run without internal retry: the remaining loop is not executed,
the checkpoint write is never reached, and the process exits with status 1;
but a failure of the seen-identifier column read is recovered as an empty
seen set (the run continues), and a checkpoint read failure is likewise
recovered by the 48-hour bootstrap. -/
theorem error_abort_behavior (env : Env) (e : String) :
    (env.authResp = .ok () → env.listResp = .error e →
      checkAndFetchLeads env = ⟨[], [], false, some 1⟩)
    ∧ (∀ seen msgId rest tr, env.getResp msgId = .error e →
      processLoop env seen (msgId :: rest) tr = (tr, some e))
    ∧ (∀ seen msgId rest tr ed, env.getResp msgId = .ok ed →
      env.appendResp (buildRow env.nowStr
        (colJ (uniqueIdOf ed.payload.headers) msgId)
        (env.dom (getEmailBody ed))) = .error e →
      isDupSkip (uniqueIdOf ed.payload.headers) seen = false →
      getEmailBody ed ≠ "" →
      processLoop env seen (msgId :: rest) tr = (tr, some e))
    ∧ (∀ seen msgId rest tr ed, env.getResp msgId = .ok ed →
      env.appendResp (buildRow env.nowStr
        (colJ (uniqueIdOf ed.payload.headers) msgId)
        (env.dom (getEmailBody ed))) = .ok () →
      env.modifyResp msgId = .error e →
      isDupSkip (uniqueIdOf ed.payload.headers) seen = false →
      getEmailBody ed ≠ "" →
      processLoop env seen (msgId :: rest) tr =
        (⟨tr.appended ++ [buildRow env.nowStr
            (colJ (uniqueIdOf ed.payload.headers) msgId)
            (env.dom (getEmailBody ed))], tr.marked⟩, some e))
    ∧ (∀ msgs tr, env.authResp = .ok () → env.listResp = .ok msgs →
      msgs.isEmpty = false →
      processLoop env (getExistingMessageIds env.idColResp) msgs ⟨[], []⟩ =
        (tr, some e) →
      checkAndFetchLeads env = ⟨tr.appended, tr.marked, false, some 1⟩)
    ∧ getExistingMessageIds (Except.error e) = [] := by
  refine ⟨?_, ?_, ?_, ?_, ?_, rfl⟩
  · intro hauth hlist
    simp [checkAndFetchLeads, hauth, hlist]
  · intro seen msgId rest tr hget
    simp [processLoop, hget]
  · intro seen msgId rest tr ed hget happ hdup hbody
    simp [processLoop, hget, hdup, hbody, happ]
  · intro seen msgId rest tr ed hget happ hmod hdup hbody
    simp [processLoop, hget, hdup, hbody, happ, hmod]
  · intro msgs tr hauth hlist hne hloop
    simp [checkAndFetchLeads, hauth, hlist, hne, hloop]

/-- Environment for the C6 witness: the list call itself fails. -/
def envC6w : Env where
  checkpoint := none
  now := 0
  nowStr := "w6"
  authResp := .ok ()
  idColResp := .ok []
  listResp := .error "network down"
  getResp := fun _ => .error "network down"
  appendResp := fun _ => .ok ()
  modifyResp := fun _ => .ok ()
  dom := fun _ => selC2
  writeOk := true

/-- Witness for the amended C6 theorem: a failed list call aborts the run
with exit status 1 and no checkpoint write. -/
theorem error_abort_behavior_witness :
    checkAndFetchLeads envC6w = ⟨[], [], false, some 1⟩ :=
  (error_abort_behavior envC6w "network down").1 rfl rfl

/-- C10: a candidate whose fetched payload yields no HTML body is skipped
with no append and no mark-read, the loop continues with the remaining
candidates, and (when it is the only candidate) the run completes cleanly
and reaches the checkpoint write. -/
theorem no_html_body_skipped (env : Env) (msgId : String) (ed : EmailData)
    (hget : env.getResp msgId = .ok ed)
    (hbody : getEmailBody ed = "") :
    (∀ seen rest tr, processLoop env seen (msgId :: rest) tr =
      processLoop env seen rest tr)
    ∧ (env.authResp = .ok () → env.listResp = .ok [msgId] →
      checkAndFetchLeads env = ⟨[], [], true, none⟩) := by
  have hskip : ∀ seen rest tr, processLoop env seen (msgId :: rest) tr =
      processLoop env seen rest tr := by
    intro seen rest tr
    simp [processLoop, hget, hbody]
  refine ⟨hskip, fun hauth hlist => ?_⟩
  simp [checkAndFetchLeads, hauth, hlist, processLoop, hget, hbody]

/-- A payload with parts but no `text/html` part: `getEmailBody` returns the
empty string (the top-level body data is not consulted when parts exist). -/
def edC10 : EmailData :=
  ⟨⟨some [⟨"text/plain", some "hello"⟩], some "unused", []⟩⟩

/-- Environment for the C10 witness. -/
def envC10 : Env where
  checkpoint := none
  now := 0
  nowStr := "w10"
  authResp := .ok ()
  idColResp := .ok []
  listResp := .ok ["m10"]
  getResp := fun _ => .ok edC10
  appendResp := fun _ => .ok ()
  modifyResp := fun _ => .ok ()
  dom := fun _ => selC2
  writeOk := true

/-- Witness for C10: the body-less candidate leaves the run with no appended
rows, no marked messages, a clean exit and the checkpoint write reached. -/
theorem no_html_body_skipped_witness :
    checkAndFetchLeads envC10 = ⟨[], [], true, none⟩ :=
  (no_html_body_skipped envC10 "m10" edC10 rfl rfl).2 rfl rfl

end GmailLeads
